import Mathlib

/-!
Verification of the CIS Oracle audit script (cis_oracle.py).

The script is a linear pipeline: collect credentials, connect, run a fixed
catalog of audit queries, and render the results into one HTML report.
We embed the pipeline shallowly:

* Database values are modelled by `PyVal` (integers, strings and tuples),
  mirroring the dynamically typed row tuples returned by `cursor.fetchall()`.
* A database session is a function from query text to either a row list or
  an error message (`QuerySession`), standing for `cursor.execute` followed
  by `cursor.fetchall`, which either returns rows or raises an exception
  whose `str()` is the message.
* The audit loop (lines 81-95 of the source) becomes `runCheck`/`runAudit`.
* The Jinja2 template (lines 108-154) is expanded by hand: with the default
  environment (no autoescape, no trim), rendering is literal text around the
  substituted variables, and the `{% for %}` body repeats once per result.
  The `join` filter stringifies each list element exactly as Python `str`
  does, which `pyStr`/`pyRepr` reproduce.
* The whole process (connect, loop, closes, mkdir, file write, prints,
  exit code) is `runProgram`, which records console lines and an ordered
  event trace instead of performing IO.
-/

/-- A Python value as it appears in query results: `cx_Oracle` rows are
tuples of scalars; the error branch builds a one-element tuple holding a
string. -/
inductive PyVal where
  | int : Int → PyVal
  | str : String → PyVal
  | tup : List PyVal → PyVal

/-- True exactly on `PyVal.str`. -/
def PyVal.isStr : PyVal → Bool
  | .str _ => true
  | _ => false

/-- True exactly on `PyVal.tup`. -/
def PyVal.isTup : PyVal → Bool
  | .tup _ => true
  | _ => false

mutual
/-- Python `repr` of a value (as used for elements nested inside a tuple):
integers print plainly, strings are quoted, tuples are parenthesised with a
trailing comma in the one-element case. -/
def pyRepr : PyVal → String
  | .int n => toString n
  | .str s => "\x27" ++ s ++ "\x27"
  | .tup [x] => "(" ++ pyRepr x ++ ",)"
  | .tup xs => "(" ++ String.intercalate ", " (pyReprList xs) ++ ")"

/-- `pyRepr` mapped over a list (structural recursion helper). -/
def pyReprList : List PyVal → List String
  | [] => []
  | x :: xs => pyRepr x :: pyReprList xs
end

/-- Python `str` of a value: like `repr` except that a top-level string is
returned unquoted.  This is what the Jinja2 `join` filter applies to each
element of `item.output`. -/
def pyStr : PyVal → String
  | .str s => s
  | v => pyRepr v

/-- One catalog entry, mirroring the dict literals of `cis_checks`
(source lines 18-66). -/
structure Check where
  id : String
  desc : String
  query : String
  risk : String
  fix_type : String
  remediation : String

/-- One entry of the `results` list built by the audit loop
(source lines 88-95). -/
structure Result where
  id : String
  desc : String
  risk : String
  fix_type : String
  remediation : String
  output : List PyVal

/-- A live database session: for each query text, either the fetched rows or
the stringified exception raised by `cursor.execute`/`fetchall`. -/
def QuerySession : Type := String → Except String (List PyVal)

/-- The static check catalog, copied from source lines 18-66. -/
def cis_checks : List Check :=
  [ { id := "1.1"
      desc := "Ensure auditing is enabled"
      query := "SELECT value FROM v$parameter WHERE name = \x27audit_trail\x27"
      risk := "High"
      fix_type := "Quick"
      remediation := "Set \x27audit_trail=DB,EXTENDED\x27 in init.ora or spfile" },
    { id := "2.1"
      desc := "Password complexity enforced"
      query := "SELECT profile, resource_name, limit \n                    FROM dba_profiles \n                    WHERE resource_name = \x27PASSWORD_VERIFY_FUNCTION\x27"
      risk := "Medium"
      fix_type := "Planned"
      remediation := "Assign strong password functions to user profiles" },
    { id := "3.1"
      desc := "DBA role misuse"
      query := "SELECT grantee FROM dba_role_privs \n                    WHERE granted_role = \x27DBA\x27"
      risk := "High"
      fix_type := "Involved"
      remediation := "Limit DBA role assignment to only authorized users" },
    { id := "4.1"
      desc := "Failed login audit check"
      query := "SELECT username, timestamp, returncode \n                    FROM dba_audit_session \n                    WHERE returncode != 0 AND ROWNUM <= 5"
      risk := "Medium"
      fix_type := "Quick"
      remediation := "Enable audit for session logon failures" },
    { id := "5.1"
      desc := "Check for default user accounts"
      query := "SELECT username, account_status \n                    FROM dba_users \n                    WHERE username IN (\x27SCOTT\x27,\x27HR\x27,\x27OUTLN\x27)"
      risk := "Low"
      fix_type := "Quick"
      remediation := "Lock/remove unused default accounts" } ]

/-- Body of the audit loop for one check (source lines 82-95): on success
the output is the fetched rows; on any exception it is the one-element list
holding the one-element tuple `("Error: " + str(e),)`. -/
def runCheck (s : QuerySession) (check : Check) : Result :=
  let output : List PyVal :=
    match s check.query with
    | .ok rows => rows
    | .error e => [PyVal.tup [PyVal.str ("Error: " ++ e)]]
  { id := check.id
    desc := check.desc
    risk := check.risk
    fix_type := check.fix_type
    remediation := check.remediation
    output := output }

/-- The audit loop (source line 81): append one `Result` per check, in
catalog order. -/
def runAudit (s : QuerySession) : List Check → List Result
  | [] => []
  | c :: cs => runCheck s c :: runAudit s cs

/-- The text of the output cell for one result: the Jinja2 expression
`item.output | join(newline)` stringifies each element of the output list
with Python `str` and joins the pieces with a newline. -/
def outputCell (item : Result) : String :=
  String.intercalate "\n" (item.output.map pyStr)

/-- The template text produced for one iteration of the `{% for %}` loop
(source lines 140-149), with the four `{{ ... }}` expressions substituted.
With the default Jinja2 environment nothing is escaped or trimmed. -/
def rowHtml (item : Result) : String :=
  "\n            <tr class=\"" ++ item.risk ++ "\">\n                <td>"
    ++ item.id ++ "</td>\n                <td>"
    ++ item.desc ++ "</td>\n                <td>"
    ++ item.risk ++ "</td>\n                <td>"
    ++ item.fix_type ++ "</td>\n                <td>"
    ++ item.remediation ++ "</td>\n                <td><pre>"
    ++ outputCell item ++ "</pre></td>\n            </tr>\n        "

/-- The table body rows of the rendered report: one `rowHtml` per result,
in order (the expansion of the `{% for item in results %}` loop). -/
def tbodyRows (results : List Result) : List String :=
  results.map rowHtml

/-- Literal template text from the start of the template string up to the
`{{ date }}` expression (source lines 108-127).  Braces of the embedded CSS
are written with character escapes. -/
def templateHead : String :=
  "\n<!DOCTYPE html>\n<html>\n<head>\n    <meta charset=\"UTF-8\">\n    <title>Oracle CIS Audit Report</title>\n    <style>\n        body \x7b font-family: Arial; padding: 20px; \x7d\n        table \x7b width: 100%; border-collapse: collapse; margin-top: 20px; \x7d\n        th, td \x7b padding: 10px; border: 1px solid #ccc; vertical-align: top; \x7d\n        th \x7b background-color: #f0f0f0; \x7d\n        .High \x7b background-color: #f8d7da; \x7d\n        .Medium \x7b background-color: #fff3cd; \x7d\n        .Low \x7b background-color: #d4edda; \x7d\n        pre \x7b white-space: pre-wrap; background: #f4f4f4; padding: 8px; \x7d\n    </style>\n</head>\n<body>\n    <h1>Oracle Database CIS Audit Report</h1>\n    <p><strong>Date:</strong> "

/-- Literal template text between `{{ date }}` and the `{% for %}` tag
(source lines 127-140). -/
def templateMid : String :=
  "</p>\n    <table>\n        <thead>\n            <tr>\n                <th>Finding ID</th>\n                <th>Description</th>\n                <th>Risk Rating</th>\n                <th>Fix Type</th>\n                <th>Remediation</th>\n                <th>Output</th>\n            </tr>\n        </thead>\n        <tbody>\n        "

/-- Literal template text after the `{% endfor %}` tag
(source lines 149-154). -/
def templateTail : String :=
  "\n        </tbody>\n    </table>\n</body>\n</html>\n"

/-- `template.render(date=..., results=...)` (source lines 108-157):
literal text around the substituted date, with the loop body expanded once
per result. -/
def renderTemplate (date : String) (results : List Result) : String :=
  templateHead ++ date ++ templateMid ++ String.join (tbodyRows results) ++ templateTail

/-- The rules of the embedded stylesheet (source lines 114-123), as pairs
of selector text and declaration text. -/
def styleRules : List (String × String) :=
  [ ("body", "font-family: Arial; padding: 20px;"),
    ("table", "width: 100%; border-collapse: collapse; margin-top: 20px;"),
    ("th, td", "padding: 10px; border: 1px solid #ccc; vertical-align: top;"),
    ("th", "background-color: #f0f0f0;"),
    (".High", "background-color: #f8d7da;"),
    (".Medium", "background-color: #fff3cd;"),
    (".Low", "background-color: #d4edda;"),
    ("pre", "white-space: pre-wrap; background: #f4f4f4; padding: 8px;") ]

/-- The stylesheet rules whose selector is the class selector for class
`c` (CSS `.c`). -/
def classRules (c : String) : List (String × String) :=
  styleRules.filter (fun r => r.1 == "." ++ c)

/-- Everything the process does after the credential prompts, recorded as
data instead of performed as IO. -/
inductive Event where
  | connectAttempt
  | execQuery (q : String)
  | cursorClose
  | connClose
  | mkdir (dir : String)
  | fileWrite (path contents : String)

/-- True exactly on `Event.connClose`. -/
def Event.isConnClose : Event → Bool
  | .connClose => true
  | _ => false

/-- True exactly on `Event.execQuery`. -/
def Event.isExecQuery : Event → Bool
  | .execQuery _ => true
  | _ => false

/-- True on the file-system events (`mkdir` and `fileWrite`). -/
def Event.isFsEvent : Event → Bool
  | .mkdir _ => true
  | .fileWrite _ _ => true
  | _ => false

/-- Observable outcome of one run: process exit code, console lines, and
the ordered trace of session/file-system events. -/
structure RunOutcome where
  exitCode : Nat
  console : List String
  events : List Event

/-- Report directory name (source line 101). -/
def report_dir : String := "cis_html_reports"

/-- Report file path for a given timestamp (source line 104). -/
def reportPath (timestamp : String) : String :=
  report_dir ++ "/oracle_cis_report_" ++ timestamp ++ ".html"

/-- The whole program after the prompts (source lines 69-159).  `conn` is
the outcome of the single `cx_Oracle.connect` call; `timestamp` and `date`
are the two formatted clock readings of lines 103 and 157.  On connection
failure the process prints the diagnostic and exits with code 1 before any
further action; otherwise it runs the audit loop, closes the cursor and the
connection, creates the report directory, writes the rendered report in one
call, and exits normally. -/
def runProgram (conn : Except String QuerySession) (timestamp date : String) :
    RunOutcome :=
  match conn with
  | .error e =>
      { exitCode := 1
        console := ["🧪 Connecting to Oracle...", "❌ Connection failed: " ++ e]
        events := [Event.connectAttempt] }
  | .ok s =>
      let results := runAudit s cis_checks
      let path := reportPath timestamp
      { exitCode := 0
        console := ["🧪 Connecting to Oracle...", "✅ Connected.",
                    "📄 Report saved to: " ++ path]
        events := [Event.connectAttempt]
                  ++ cis_checks.map (fun c => Event.execQuery c.query)
                  ++ [Event.cursorClose, Event.connClose,
                      Event.mkdir report_dir,
                      Event.fileWrite path (renderTemplate date results)] }

/-- A session on which every query raises
`ORA-00942: table or view does not exist`. -/
def failSession : QuerySession :=
  fun _ => Except.error "ORA-00942: table or view does not exist"

/-- A session on which the query `SELECT 1 FROM DUAL` returns the single
row `(1,)` and every other query raises `ORA-00942`. -/
def mixedSession : QuerySession := fun q =>
  if q = "SELECT 1 FROM DUAL" then Except.ok [PyVal.tup [PyVal.int 1]]
  else Except.error "ORA-00942: table or view does not exist"

/-- The single-check scenario catalog entry of the spec:
id `1.1`, risk `High`, query `SELECT 1 FROM DUAL`. -/
def check11 : Check :=
  { id := "1.1"
    desc := "Single row scenario check"
    query := "SELECT 1 FROM DUAL"
    risk := "High"
    fix_type := "Quick"
    remediation := "None" }

/-- A result whose output row holds a string with HTML-special
characters. -/
def htmlResult : Result :=
  { id := "9.9"
    desc := "HTML-special content"
    risk := "High"
    fix_type := "Quick"
    remediation := "None"
    output := [PyVal.tup [PyVal.str "<script>&"]] }

theorem runAudit_eq_map (s : QuerySession) (checks : List Check) :
    runAudit s checks = checks.map (runCheck s) := by
  induction checks with
  | nil => rfl
  | cons c cs ih => simp [runAudit, ih]

theorem join_cons (a : String) (l : List String) :
    String.join (a :: l) = a ++ String.join l := by
  apply String.ext
  simp [String.data_join, String.data_append]

theorem dot_append_inj {c d : String} (h : ("." ++ c : String) = "." ++ d) :
    c = d := by
  have h2 := congrArg String.data h
  rw [String.data_append, String.data_append] at h2
  exact String.ext (List.append_cancel_left h2)

theorem head_ne_dot {k : String} (hk : k.data.head? ≠ some ('.' : Char))
    (c : String) : k ≠ "." ++ c := by
  intro h
  apply hk
  rw [h, String.data_append]
  rfl

theorem rowHtml_split_at_risk (r : Result) :
    rowHtml r
      = ("\n            <tr class=\"" ++ r.risk)
        ++ ("\"" ++ (">\n                <td>" ++ (r.id ++ ("</td>\n                <td>"
        ++ (r.desc ++ ("</td>\n                <td>" ++ (r.risk ++ ("</td>\n                <td>"
        ++ (r.fix_type ++ ("</td>\n                <td>" ++ (r.remediation
        ++ ("</td>\n                <td><pre>" ++ (outputCell r
        ++ "</pre></td>\n            </tr>\n        "))))))))))))) := by
  simp only [rowHtml, String.append_assoc]
  rfl

theorem rowHtml_split_at_cell (r : Result) :
    rowHtml r
      = ("\n            <tr class=\"" ++ (r.risk ++ ("\">\n                <td>"
        ++ (r.id ++ ("</td>\n                <td>" ++ (r.desc ++ ("</td>\n                <td>"
        ++ (r.risk ++ ("</td>\n                <td>" ++ (r.fix_type ++ ("</td>\n                <td>"
        ++ (r.remediation ++ "</td>\n                <td><pre>"))))))))))))
        ++ (outputCell r ++ "</pre></td>\n            </tr>\n        ") := by
  simp only [rowHtml, String.append_assoc]

theorem join_rows_embed (results : List Result) (r : Result) (h : r ∈ results) :
    ∃ a b, String.join (tbodyRows results) = a ++ (outputCell r ++ b) := by
  induction results with
  | nil => cases h
  | cons x xs ih =>
    have hx : tbodyRows (x :: xs) = rowHtml x :: tbodyRows xs := rfl
    rcases List.mem_cons.mp h with rfl | hmem
    · refine ⟨"\n            <tr class=\"" ++ (r.risk ++ ("\">\n                <td>"
        ++ (r.id ++ ("</td>\n                <td>" ++ (r.desc ++ ("</td>\n                <td>"
        ++ (r.risk ++ ("</td>\n                <td>" ++ (r.fix_type ++ ("</td>\n                <td>"
        ++ (r.remediation ++ "</td>\n                <td><pre>"))))))))))),
        "</pre></td>\n            </tr>\n        " ++ String.join (tbodyRows xs), ?_⟩
      rw [hx, join_cons, rowHtml_split_at_cell r]
      simp [String.append_assoc]
    · obtain ⟨a, b, hab⟩ := ih hmem
      refine ⟨rowHtml x ++ a, b, ?_⟩
      rw [hx, join_cons, hab]
      simp [String.append_assoc]

/-- C1: for every catalog and every session (so regardless of which queries
succeed or fail), the audit loop produces exactly one `Result` per
`Check`, and the i-th result is the result of the i-th catalog entry
(catalog order = report order). -/
theorem audit_results_count_and_order (s : QuerySession) (checks : List Check) :
    (runAudit s checks).length = checks.length
    ∧ ∀ i, ∀ h1 : i < (runAudit s checks).length, ∀ h2 : i < checks.length,
        (runAudit s checks).get ⟨i, h1⟩ = runCheck s (checks.get ⟨i, h2⟩) := by
  constructor
  · rw [runAudit_eq_map]
    exact List.length_map ..
  · intro i h1 h2
    simp [runAudit_eq_map]

theorem audit_results_count_and_order_witness :
    (0 < (runAudit mixedSession cis_checks).length ∧ 0 < cis_checks.length)
    ∧ (runAudit mixedSession cis_checks).length = cis_checks.length
    ∧ (runAudit mixedSession cis_checks).get ⟨0, by decide⟩
        = runCheck mixedSession (cis_checks.get ⟨0, by decide⟩) :=
  ⟨⟨by decide, by decide⟩,
   (audit_results_count_and_order mixedSession cis_checks).1,
   (audit_results_count_and_order mixedSession cis_checks).2 0 (by decide) (by decide)⟩

/-- C2 counterexample: on a failing query the sole entry of
`Result.output` is the one-element tuple `("Error: " + message,)`, not the
bare string itself — `isStr` of the entry is `false`, while `isStr` of the
string the claim names is `true`. -/
theorem error_entry_not_bare_string :
    ((runAudit failSession cis_checks).map Result.output).head?
        = some [PyVal.tup [PyVal.str "Error: ORA-00942: table or view does not exist"]]
    ∧ (((runAudit failSession cis_checks).map Result.output).head?.map
        (fun o => o.map PyVal.isStr)) = some [false]
    ∧ PyVal.isStr (PyVal.str "Error: ORA-00942: table or view does not exist") = true :=
  ⟨rfl, rfl, rfl⟩

/-- C2 amended: for every check whose query raises an exception, the
output is the one-element sequence whose sole entry is the one-element
tuple containing `"Error: "` followed by the exception message, and
execution continues to the next check: the loop on `c :: rest` still
produces a result for `c` followed by the results of all of `rest`. -/
theorem error_check_yields_tuple_row_and_continues (s : QuerySession)
    (c : Check) (msg : String) (rest : List Check)
    (h : s c.query = Except.error msg) :
    (runCheck s c).output = [PyVal.tup [PyVal.str ("Error: " ++ msg)]]
    ∧ runAudit s (c :: rest) = runCheck s c :: runAudit s rest
    ∧ (runAudit s (c :: rest)).length = rest.length + 1 := by
  refine ⟨?_, rfl, ?_⟩
  · simp [runCheck, h]
  · simp [runAudit_eq_map]

theorem error_check_yields_tuple_row_and_continues_witness :
    failSession check11.query = Except.error "ORA-00942: table or view does not exist"
    ∧ ((runCheck failSession check11).output
        = [PyVal.tup [PyVal.str ("Error: " ++ "ORA-00942: table or view does not exist")]]
      ∧ runAudit failSession (check11 :: cis_checks)
          = runCheck failSession check11 :: runAudit failSession cis_checks
      ∧ (runAudit failSession (check11 :: cis_checks)).length = cis_checks.length + 1) :=
  ⟨rfl, error_check_yields_tuple_row_and_continues failSession check11
    "ORA-00942: table or view does not exist" cis_checks rfl⟩

/-- C3: for every check whose query succeeds, the output is exactly the
row list the session returned — same tuples, same order, nothing added,
dropped or transformed. -/
theorem success_output_equals_rows (s : QuerySession) (c : Check)
    (rows : List PyVal) (h : s c.query = Except.ok rows) :
    (runCheck s c).output = rows := by
  simp [runCheck, h]

theorem success_output_equals_rows_witness :
    mixedSession check11.query = Except.ok [PyVal.tup [PyVal.int 1]]
    ∧ (runCheck mixedSession check11).output = [PyVal.tup [PyVal.int 1]] :=
  ⟨rfl, success_output_equals_rows mixedSession check11 [PyVal.tup [PyVal.int 1]] rfl⟩

/-- C4: for every results sequence of length N the table body consists of
exactly N rows, each row opens with a class attribute equal to the
verbatim risk string of its result, the stylesheet gives the classes
High, Medium and Low three distinct declarations, and any other class
value matches no rule of the stylesheet. -/
theorem report_row_count_class_and_risk_styles (results : List Result) :
    (tbodyRows results).length = results.length
    ∧ (∀ r ∈ results, ∃ rest,
        rowHtml r = ("\n            <tr class=\"" ++ r.risk) ++ ("\"" ++ rest))
    ∧ classRules "High" = [(".High", "background-color: #f8d7da;")]
    ∧ classRules "Medium" = [(".Medium", "background-color: #fff3cd;")]
    ∧ classRules "Low" = [(".Low", "background-color: #d4edda;")]
    ∧ (("background-color: #f8d7da;" : String) ≠ "background-color: #fff3cd;"
       ∧ ("background-color: #f8d7da;" : String) ≠ "background-color: #d4edda;"
       ∧ ("background-color: #fff3cd;" : String) ≠ "background-color: #d4edda;")
    ∧ ∀ c : String, c ≠ "High" → c ≠ "Medium" → c ≠ "Low" → classRules c = [] := by
  refine ⟨by simp [tbodyRows], ?_, rfl, rfl, rfl,
    ⟨by decide, by decide, by decide⟩, ?_⟩
  · intro r hr
    exact ⟨_, rowHtml_split_at_risk r⟩
  · intro c h1 h2 h3
    rw [classRules, List.filter_eq_nil_iff]
    intro x hx
    simp only [styleRules, List.mem_cons, List.not_mem_nil, or_false] at hx
    rcases hx with rfl | rfl | rfl | rfl | rfl | rfl | rfl | rfl
    all_goals simp only [beq_iff_eq]
    · exact head_ne_dot (by decide) c
    · exact head_ne_dot (by decide) c
    · exact head_ne_dot (by decide) c
    · exact head_ne_dot (by decide) c
    · intro hh
      exact h1 (dot_append_inj (c := "High") (d := c) hh).symm
    · intro hh
      exact h2 (dot_append_inj (c := "Medium") (d := c) hh).symm
    · intro hh
      exact h3 (dot_append_inj (c := "Low") (d := c) hh).symm
    · exact head_ne_dot (by decide) c

theorem report_row_count_class_and_risk_styles_witness :
    (htmlResult ∈ [htmlResult])
    ∧ (∃ rest, rowHtml htmlResult
        = ("\n            <tr class=\"" ++ htmlResult.risk) ++ ("\"" ++ rest))
    ∧ (("Critical" : String) ≠ "High" ∧ ("Critical" : String) ≠ "Medium"
        ∧ ("Critical" : String) ≠ "Low")
    ∧ classRules "Critical" = [] := by
  have h := report_row_count_class_and_risk_styles [htmlResult]
  exact ⟨List.mem_singleton_self _,
    h.2.1 htmlResult (List.mem_singleton_self _),
    ⟨by decide, by decide, by decide⟩,
    h.2.2.2.2.2.2 "Critical" (by decide) (by decide) (by decide)⟩

/-- C5 counterexample: for the scenario catalog with the single check
`1.1` whose query returns the row `(1,)`, the report has one body row but
the output cell text is `(1,)` — the Python `str` of the row tuple — and
not the string `1` the claim names. -/
theorem single_check_output_cell_not_plain_one :
    (tbodyRows (runAudit mixedSession [check11])).length = 1
    ∧ outputCell (runCheck mixedSession check11) = "(1,)"
    ∧ ("(1,)" : String) ≠ "1" :=
  ⟨rfl, rfl, by decide⟩

/-- C5 amended: in the single-check scenario the rendered report has
exactly one table row, tagged with CSS class `High`, and the text of its
output cell is `(1,)`, the `str` form of the row tuple. -/
theorem single_check_report_row_and_cell :
    (tbodyRows (runAudit mixedSession [check11])).length = 1
    ∧ (∃ rest, rowHtml (runCheck mixedSession check11)
        = ("\n            <tr class=\"" ++ "High") ++ ("\"" ++ rest))
    ∧ outputCell (runCheck mixedSession check11) = "(1,)" := by
  refine ⟨rfl, ⟨_, rowHtml_split_at_risk (runCheck mixedSession check11)⟩, rfl⟩

/-- C6: when the single connection attempt fails the process exits with
code 1 after printing the diagnostic, having performed no further action:
its whole event trace is the one connection attempt, so no directory and
no file under `cis_html_reports/` is created and no report exists; a run
whose connection succeeds exits with code 0. -/
theorem connect_failure_exits_one_no_files (msg ts d : String) (s : QuerySession) :
    (runProgram (Except.error msg) ts d).exitCode = 1
    ∧ (runProgram (Except.error msg) ts d).events = [Event.connectAttempt]
    ∧ ((runProgram (Except.error msg) ts d).events.filter Event.isFsEvent) = []
    ∧ ("❌ Connection failed: " ++ msg) ∈ (runProgram (Except.error msg) ts d).console
    ∧ (runProgram (Except.ok s) ts d).exitCode = 0 := by
  refine ⟨rfl, rfl, rfl, ?_, rfl⟩
  simp [runProgram]

/-- C7: on any connected run, whatever the per-check outcomes, the event
trace contains exactly one connection-close event, the query events are
exactly one per catalog entry in order, and every query event precedes the
close (the filter of the trace prefix before the close already contains
all query events). -/
theorem session_closed_once_after_all_checks (s : QuerySession) (ts d : String) :
    (((runProgram (Except.ok s) ts d).events.filter Event.isConnClose).length = 1)
    ∧ ((runProgram (Except.ok s) ts d).events.filter Event.isExecQuery)
        = cis_checks.map (fun c => Event.execQuery c.query)
    ∧ (((runProgram (Except.ok s) ts d).events.takeWhile
          (fun e => !(Event.isConnClose e))).filter Event.isExecQuery)
        = ((runProgram (Except.ok s) ts d).events.filter Event.isExecQuery) :=
  ⟨rfl, rfl, rfl⟩

/-- C8: rendering is a pure function — the same results and date give the
same bytes — and two renders of the same results decompose around the date
with identical prefix and identical suffix, so they differ at most in the
embedded date string. -/
theorem render_deterministic_modulo_date (results : List Result) (d d1 d2 : String) :
    renderTemplate d results = renderTemplate d results
    ∧ ∃ pre post,
        renderTemplate d1 results = pre ++ (d1 ++ post)
        ∧ renderTemplate d2 results = pre ++ (d2 ++ post) := by
  refine ⟨rfl, templateHead,
    templateMid ++ (String.join (tbodyRows results) ++ templateTail), ?_, ?_⟩
  · simp only [renderTemplate, String.append_assoc]
  · simp only [renderTemplate, String.append_assoc]

/-- C9: the renderer embeds each result's output cell text verbatim — the
rendered document literally decomposes as prefix ++ cell text ++ suffix,
with no escaping applied to the cell text (so HTML-special characters in
row strings reach the document unchanged). -/
theorem output_rendered_unescaped (d : String) (results : List Result)
    (r : Result) (h : r ∈ results) :
    ∃ a b, renderTemplate d results = a ++ (outputCell r ++ b) := by
  obtain ⟨a, b, hab⟩ := join_rows_embed results r h
  refine ⟨templateHead ++ (d ++ (templateMid ++ a)), b ++ templateTail, ?_⟩
  simp only [renderTemplate, hab, String.append_assoc]

theorem output_rendered_unescaped_witness :
    (htmlResult ∈ [htmlResult])
    ∧ outputCell htmlResult = "(\x27<script>&\x27,)"
    ∧ ∃ a b, renderTemplate "2025-01-01 00:00:00" [htmlResult]
        = a ++ (outputCell htmlResult ++ b) :=
  ⟨List.mem_singleton_self _, rfl,
   output_rendered_unescaped "2025-01-01 00:00:00" [htmlResult] htmlResult
     (List.mem_singleton_self _)⟩

/-- C10: if the session returns only tuples (as `cursor.fetchall` does),
then every element of every result output is a tuple — on the error branch
the one-element tuple wrapping the error string, never the bare string —
and the error entry renders in the report as the `str` form of that
one-element tuple. -/
theorem outputs_uniformly_tuples (s : QuerySession) (checks : List Check)
    (hs : ∀ q rows, s q = Except.ok rows → ∀ v ∈ rows, PyVal.isTup v = true) :
    (∀ r ∈ runAudit s checks, ∀ v ∈ r.output, PyVal.isTup v = true)
    ∧ (∀ c msg, s c.query = Except.error msg →
        (runCheck s c).output = [PyVal.tup [PyVal.str ("Error: " ++ msg)]]
        ∧ outputCell (runCheck s c)
            = pyStr (PyVal.tup [PyVal.str ("Error: " ++ msg)])) := by
  constructor
  · intro r hr v hv
    rw [runAudit_eq_map] at hr
    obtain ⟨c, hc, rfl⟩ := List.mem_map.mp hr
    cases hcq : s c.query with
    | ok rows =>
        have hv2 : v ∈ rows := by simpa [runCheck, hcq] using hv
        exact hs _ _ hcq v hv2
    | error e =>
        have hv2 : v = PyVal.tup [PyVal.str ("Error: " ++ e)] := by
          simpa [runCheck, hcq] using hv
        simp [hv2, PyVal.isTup]
  · intro c msg hcq
    have hout : (runCheck s c).output = [PyVal.tup [PyVal.str ("Error: " ++ msg)]] := by
      simp [runCheck, hcq]
    refine ⟨hout, ?_⟩
    rw [outputCell, hout]
    rfl

theorem outputs_uniformly_tuples_witness :
    (∀ q rows, mixedSession q = Except.ok rows → ∀ v ∈ rows, PyVal.isTup v = true)
    ∧ (∀ r ∈ runAudit mixedSession cis_checks, ∀ v ∈ r.output, PyVal.isTup v = true)
    ∧ mixedSession (cis_checks.get ⟨0, by decide⟩).query
        = Except.error "ORA-00942: table or view does not exist"
    ∧ outputCell (runCheck mixedSession (cis_checks.get ⟨0, by decide⟩))
        = pyStr (PyVal.tup [PyVal.str ("Error: " ++ "ORA-00942: table or view does not exist")]) := by
  have hs : ∀ q rows, mixedSession q = Except.ok rows → ∀ v ∈ rows, PyVal.isTup v = true := by
    intro q rows hq v hv
    by_cases h : q = "SELECT 1 FROM DUAL"
    · simp only [mixedSession, h, if_pos] at hq
      cases hq
      simp only [List.mem_singleton] at hv
      simp [hv, PyVal.isTup]
    · simp [mixedSession, h] at hq
  have h2 := outputs_uniformly_tuples mixedSession cis_checks hs
  exact ⟨hs, h2.1, rfl,
    (h2.2 (cis_checks.get ⟨0, by decide⟩) "ORA-00942: table or view does not exist" rfl).2⟩
